import Mathlib

/-!
Shallow embedding of the PlanetPlant ESP32 controller
(src/esp32/src/main.cpp together with src/esp32/src/config.h) and proofs
about its control core: pump actuation, the timeout check in loop(),
the MQTT command callback, the periodic emitters, the reconnect routine
and the sensor-reading pipeline.

Modelling conventions:
- millis() timestamps are unsigned 32-bit milliseconds, embedded as Nat
  together with the wrap-around subtraction wsub (C unsigned subtraction).
- C++ int arithmetic on durations is embedded as Int; the truncating
  C++ integer division is Int.tdiv.
- float values from the DHT driver matter to the claims only through
  their NaN-ness, so a DHT acquisition is an Option Rat, none = NaN.
- Hardware and library side effects (digitalWrite, MQTT publish and
  subscribe calls) are recorded as explicit output events; the connection
  state of the MQTT client library is passed in as a Bool.
-/

namespace PlanetPlant

/-- 2^32, the modulus of unsigned long arithmetic on the ESP32 target. -/
def U32 : Nat := 4294967296

/-- C unsigned 32-bit subtraction: (a - b) mod 2^32. -/
def wsub (a b : Nat) : Nat := (a % U32 + (U32 - b % U32)) % U32

/-- main.cpp line 31: SENSOR_READ_INTERVAL = 60000 ms. -/
def SENSOR_READ_INTERVAL : Nat := 60000

/-- main.cpp line 32: HEARTBEAT_INTERVAL = 300000 ms. The redefinition in
main.cpp follows the include of config.h (which sets 30000), so the value
seen by loop() is 300000. -/
def HEARTBEAT_INTERVAL : Nat := 300000

/-- main.cpp line 30: number of moisture samples averaged per read. -/
def MOISTURE_SAMPLES : Nat := 10

/-- config.h line 27: maximum pump run time, ms. -/
def PUMP_MAX_DURATION : Nat := 10000

/-- config.h line 28: minimum time between pump activations, ms. The
constant is declared in config.h but no code in main.cpp reads it. -/
def PUMP_COOLDOWN_TIME : Nat := 300000

/-- Dry-soil calibration endpoint. main.cpp refers to MOISTURE_DRY; the
value is the MOISTURE_DRY_VALUE = 1023 of config.h line 23. -/
def MOISTURE_DRY : Int := 1023

/-- Wet-soil calibration endpoint. main.cpp refers to MOISTURE_WET; the
value is the MOISTURE_WET_VALUE = 0 of config.h line 24. -/
def MOISTURE_WET : Int := 0

/-- Modelled from the spec: WATERING_DURATION is used by loop(),
mqttCallback and manualWatering in main.cpp but is defined nowhere under
src/. The spec fixes the maximum duration at 10000 ms and its scenario
uses a default duration equal to that maximum, so the constant is
modelled as 10000 ms. -/
def WATERING_DURATION : Nat := 10000

/-- The SensorData struct of main.cpp lines 50 to 56. temperature and
humidity are float in the source; none stands for NaN. -/
structure SensorData where
  temperature : Option Rat
  humidity : Option Rat
  moisture : Int
  lightLevel : Int
  isValid : Bool
deriving DecidableEq

/-- Observable side effects of the control core: MQTT subscriptions and
the four kinds of outbound publications, reduced to the payload fields
the claims mention. -/
inductive Event where
  | subscribe (topic : String)
  | statusMsg (status : String)
  | pumpMsg (action : String) (duration : Int) (pumpActive : Bool)
  | heartbeatMsg
  | sensorMsg (d : SensorData)
deriving DecidableEq

/-- The mutable globals of main.cpp lines 44 to 47, plus the two output
pins written by the pump routines. -/
structure DeviceState where
  lastSensorReading : Nat
  lastHeartbeat : Nat
  pumpStartTime : Nat
  pumpActive : Bool
  pumpRelay : Bool
  led : Bool
deriving DecidableEq

/-- State at boot: globals zero-initialised, outputs low (setup()). -/
def initState : DeviceState :=
  { lastSensorReading := 0, lastHeartbeat := 0, pumpStartTime := 0,
    pumpActive := false, pumpRelay := false, led := false }

/-- A state with the pump running since time 0, used as a fixture. -/
def activeState : DeviceState :=
  { initState with pumpActive := true, pumpRelay := true, led := true }

/-- publishStatus of main.cpp lines 312 to 330: publishes only when the
client is connected. Payload reduced to the status string. -/
def publishStatus (status : String) (connected : Bool) : List Event :=
  if connected then [Event.statusMsg status] else []

/-- publishPumpStatus of main.cpp lines 369 to 387: reads the global
pumpActive at publish time, publishes only when connected. -/
def publishPumpStatus (action : String) (duration : Int) (connected : Bool)
    (s : DeviceState) : List Event :=
  if connected then [Event.pumpMsg action duration s.pumpActive] else []

/-- startPump of main.cpp lines 332 to 351. When already active it only
logs and returns. Otherwise it raises the relay and LED outputs, sets
pumpActive and pumpStartTime, and then publishes the started event; the
if-block of lines 345 to 347 that would record the requested duration is
empty in the source, so nothing else of the state changes. -/
def startPump (duration : Int) (now : Nat) (connected : Bool)
    (s : DeviceState) : DeviceState × List Event :=
  if s.pumpActive then (s, [])
  else
    let s1 : DeviceState :=
      { s with pumpRelay := true, led := true,
               pumpActive := true, pumpStartTime := now }
    (s1, publishPumpStatus "started" duration connected s1)

/-- stopPump of main.cpp lines 353 to 367. No-op when not active;
otherwise lowers the outputs, clears pumpActive and publishes the
stopped event with the elapsed duration. -/
def stopPump (now : Nat) (connected : Bool)
    (s : DeviceState) : DeviceState × List Event :=
  if s.pumpActive then
    let actualDuration : Int := (wsub now s.pumpStartTime : Int)
    let s1 : DeviceState :=
      { s with pumpRelay := false, led := false, pumpActive := false }
    (s1, publishPumpStatus "stopped" actualDuration connected s1)
  else (s, [])

/-- The fields of the water-command JSON document that mqttCallback
reads. deserializeJson on a malformed payload leaves the document empty,
which reads back as an absent action and an absent duration. -/
structure WaterDoc where
  action : Option String
  duration : Option Int
deriving DecidableEq

/-- The empty JSON document left behind by a failed parse. -/
def emptyDoc : WaterDoc := { action := none, duration := none }

/-- mqttCallback of main.cpp lines 196 to 224. onWater and onCfg state
whether the topic contains /water resp. /config at a positive index; the
config branch only logs, so it contributes nothing to state or events.
A payload that fails to parse is parsed = none. Field access on the
document follows ArduinoJson: a missing action compares unequal to both
literals, a missing duration falls back to WATERING_DURATION. -/
def mqttCallback (onWater onCfg : Bool) (parsed : Option WaterDoc)
    (now : Nat) (connected : Bool) (s : DeviceState) :
    DeviceState × List Event :=
  if onWater then
    let doc := parsed.getD emptyDoc
    if doc.action = some "start" then
      startPump (doc.duration.getD (WATERING_DURATION : Int)) now connected s
    else if doc.action = some "stop" then
      stopPump now connected s
    else (s, [])
  else (s, [])

/-- The pump timeout check of loop(), main.cpp lines 89 to 91: force a
stop when the pump is active and the elapsed time exceeds the fixed
WATERING_DURATION (strictly). -/
def pumpTimeoutTick (now : Nat) (connected : Bool)
    (s : DeviceState) : DeviceState × List Event :=
  if s.pumpActive && decide (wsub now s.pumpStartTime > WATERING_DURATION) then
    stopPump now connected s
  else (s, [])

/-- The common guard of the periodic emitters in loop(): elapsed time
strictly greater than the interval (lines 94 and 103 both use >). -/
def emitterDue (now last interval : Nat) : Bool :=
  decide (wsub now last > interval)

/-- The sensor emitter of loop(), main.cpp lines 94 to 100: when due,
read, publish only a valid reading (and only while connected, per
publishSensorData lines 278 to 288), and update lastSensorReading. -/
def sensorStep (interval now : Nat) (reading : SensorData) (connected : Bool)
    (s : DeviceState) : DeviceState × List Event :=
  if emitterDue now s.lastSensorReading interval then
    ({ s with lastSensorReading := now },
     if reading.isValid then
       (if connected then [Event.sensorMsg reading] else [])
     else [])
  else (s, [])

/-- The heartbeat emitter of loop(), main.cpp lines 103 to 106: when
due, publish (only while connected, per publishHeartbeat lines 306 to
309) and update lastHeartbeat. -/
def heartbeatStep (interval now : Nat) (connected : Bool)
    (s : DeviceState) : DeviceState × List Event :=
  if emitterDue now s.lastHeartbeat interval then
    ({ s with lastHeartbeat := now },
     if connected then [Event.heartbeatMsg] else [])
  else (s, [])

/-- The Arduino map() function on long integers: linear interpolation
with truncating division. -/
def arduinoMap (x inLo inHi outLo outHi : Int) : Int :=
  ((x - inLo) * (outHi - outLo)).tdiv (inHi - inLo) + outLo

/-- The Arduino constrain() macro. -/
def constrain (x lo hi : Int) : Int :=
  if x < lo then lo else if x > hi then hi else x

/-- The moisture percentage computation of readSensors, main.cpp lines
249 and 250: map the raw average from the calibration endpoints onto
0 to 100 and constrain into that range. -/
def moisturePercent (raw : Int) : Int :=
  constrain (arduinoMap raw MOISTURE_DRY MOISTURE_WET 0 100) 0 100

/-- readSensors of main.cpp lines 226 to 257. moistureRead i is the
i-th analogRead of the moisture pin; lightRaw the light-pin analogRead;
t and h the DHT temperature and humidity (none = NaN). The sum of the
samples is a C long, the average uses truncating division. -/
def readSensors (t h : Option Rat) (moistureRead : Nat → Int)
    (lightRaw : Int) : SensorData :=
  let valid := t.isSome && h.isSome
  let moistureSum : Int :=
    (List.range MOISTURE_SAMPLES).foldl (fun acc i => acc + moistureRead i) 0
  let rawMoisture := moistureSum.tdiv (MOISTURE_SAMPLES : Int)
  { temperature := t, humidity := h,
    moisture := moisturePercent rawMoisture,
    lightLevel := arduinoMap lightRaw 0 4095 0 100,
    isValid := valid }

/-- A constant moisture-sample sequence used as a concrete fixture. -/
def constReads : Nat → Int := fun _ => 500

/-- reconnectMQTT of main.cpp lines 163 to 194. outcomes lists the
results of the successive client.connect calls; retryCount starts at 0.
The while loop retries while not connected and retryCount < 5; on a
successful connect it subscribes to the two per-device command topics
and publishes the online status (the client is connected at that point).
Returns whether the client ended up connected, and the emitted events. -/
def reconnectMQTT (deviceId : String) (outcomes : List Bool)
    (retryCount : Nat) : Bool × List Event :=
  match outcomes with
  | [] => (false, [])
  | o :: rest =>
    if retryCount < 5 then
      if o then
        (true,
         Event.subscribe ("commands/" ++ deviceId ++ "/water") ::
         Event.subscribe ("commands/" ++ deviceId ++ "/config") ::
         publishStatus "online" true)
      else reconnectMQTT deviceId rest (retryCount + 1)
    else (false, [])

/-! Helper lemmas shared by the claim theorems. -/

/-- Truncating division is monotone in the numerator, nonnegative case. -/
theorem tdiv_le_tdiv_of_le_of_nonneg {x y c : Int} (hx : 0 ≤ x) (hc : 0 < c)
    (hxy : x ≤ y) : x.tdiv c ≤ y.tdiv c := by
  rw [Int.tdiv_eq_ediv hx hc.le, Int.tdiv_eq_ediv (le_trans hx hxy) hc.le]
  exact Int.ediv_le_ediv hc hxy

/-- Truncating division is monotone in the numerator for a positive
divisor. -/
theorem tdiv_le_tdiv_of_le {x y c : Int} (hc : 0 < c) (hxy : x ≤ y) :
    x.tdiv c ≤ y.tdiv c := by
  rcases le_or_lt 0 x with hx | hx
  · exact tdiv_le_tdiv_of_le_of_nonneg hx hc hxy
  rcases le_or_lt 0 y with hy | hy
  · have h1 : (-x).tdiv c = -(x.tdiv c) := Int.neg_tdiv x c
    have h2 : (0 : Int) ≤ (-x).tdiv c := Int.tdiv_nonneg (by omega) hc.le
    have h3 : (0 : Int) ≤ y.tdiv c := Int.tdiv_nonneg hy hc.le
    omega
  · have h := tdiv_le_tdiv_of_le_of_nonneg (x := -y) (y := -x) (c := c)
      (by omega) hc (by omega)
    have h1 : (-x).tdiv c = -(x.tdiv c) := Int.neg_tdiv x c
    have h2 : (-y).tdiv c = -(y.tdiv c) := Int.neg_tdiv y c
    omega

/-- constrain is monotone when the bounds are ordered. -/
theorem constrain_mono {x y lo hi : Int} (hlh : lo ≤ hi) (hxy : x ≤ y) :
    constrain x lo hi ≤ constrain y lo hi := by
  simp only [constrain]
  split_ifs <;> omega

/-- constrain lands in the interval when the bounds are ordered. -/
theorem constrain_mem {x lo hi : Int} (hlh : lo ≤ hi) :
    lo ≤ constrain x lo hi ∧ constrain x lo hi ≤ hi := by
  simp only [constrain]
  split_ifs <;> omega

/-- The raw-to-percent map with the configured endpoints is antitone. -/
theorem arduinoMap_moisture_antitone {a b : Int} (hab : a ≤ b) :
    arduinoMap b MOISTURE_DRY MOISTURE_WET 0 100
      ≤ arduinoMap a MOISTURE_DRY MOISTURE_WET 0 100 := by
  simp only [arduinoMap, MOISTURE_DRY, MOISTURE_WET]
  have hneg : ((0 : Int) - 1023) = -1023 := by norm_num
  rw [hneg, Int.tdiv_neg, Int.tdiv_neg]
  have h := tdiv_le_tdiv_of_le (x := (a - 1023) * (100 - 0))
    (y := (b - 1023) * (100 - 0)) (c := (1023 : Int)) (by norm_num) (by omega)
  omega

/-! Claim theorems. -/

/-- C3: the moisture percentage is monotone (antitone, since the dry
endpoint 1023 exceeds the wet endpoint 0) in the raw averaged input,
always lies in [0,100] including for raw values outside the calibration
endpoints, and at the concrete points of the scenario: raw 1023 gives
0, raw 0 gives 100, raw 1200 clamps to 0. -/
theorem moisture_mapping_spec :
    (∀ a b : Int, a ≤ b → moisturePercent b ≤ moisturePercent a)
    ∧ (∀ r : Int, 0 ≤ moisturePercent r ∧ moisturePercent r ≤ 100)
    ∧ moisturePercent 1023 = 0
    ∧ moisturePercent 0 = 100
    ∧ moisturePercent 1200 = 0 := by
  refine ⟨?_, ?_, by decide, by decide, by decide⟩
  · intro a b hab
    exact constrain_mono (by norm_num) (arduinoMap_moisture_antitone hab)
  · intro r
    exact constrain_mem (by norm_num)

/-- C3 witness: the monotonicity half of the theorem applied at the
concrete raw inputs 300 and 700. -/
theorem moisture_mapping_spec_witness :
    moisturePercent 700 ≤ moisturePercent 300 :=
  moisture_mapping_spec.1 300 700 (by decide)

/-- C1: evaluation of the code at the failing input. After a successful
start with requested duration 2000 ms at t0 = 0, the pump is still
active when the timeout check of loop() runs at now = 5000, although
min(2000, PUMP_MAX_DURATION) plus one 100 ms scheduler period is 2100,
well below 5000: the check compares the elapsed time against the fixed
WATERING_DURATION and the requested duration is never stored (the
if-block of main.cpp lines 345 to 347 is empty), so the claimed bound
does not hold. -/
theorem pump_timeout_ignores_requested_dur :
    ((startPump 2000 0 true initState).1).pumpActive = true
    ∧ ((pumpTimeoutTick 5000 true ((startPump 2000 0 true initState).1)).1).pumpActive = true
    ∧ min 2000 PUMP_MAX_DURATION + 100 < 5000 := by decide

/-- C2: evaluation of the code at the failing input. A stop at t = 1000
is followed by a start at t = 2000, only 1000 ms later and far inside
PUMP_COOLDOWN_TIME, yet the start succeeds and flips pumpActive to
true: startPump has no cooldown check at all (and stopPump records no
last-stop time), so the rejection the claim requires never happens. -/
theorem start_after_recent_stop_succeeds :
    2000 - 1000 < PUMP_COOLDOWN_TIME
    ∧ ((stopPump 1000 true activeState).1).pumpActive = false
    ∧ ((startPump 5000 2000 true ((stopPump 1000 true activeState).1)).1).pumpActive = true := by
  decide

/-- C4: a water-topic message whose payload failed to parse (parsed =
none reads back as the empty document) or whose action field is neither
the start nor the stop literal leaves the device state unchanged and
emits nothing; the callback is a total function, so no fault halts the
scheduler. -/
theorem malformed_command_no_state_change (onCfg : Bool)
    (parsed : Option WaterDoc) (now : Nat) (connected : Bool)
    (s : DeviceState)
    (h1 : (parsed.getD emptyDoc).action ≠ some "start")
    (h2 : (parsed.getD emptyDoc).action ≠ some "stop") :
    mqttCallback true onCfg parsed now connected s = (s, []) := by
  simp [mqttCallback, h1, h2]

/-- C4 witness: the theorem applied to a payload that failed to parse,
at the boot state. -/
theorem malformed_command_no_state_change_witness :
    mqttCallback true true none 0 true initState = (initState, []) :=
  malformed_command_no_state_change true none 0 true initState
    (by decide) (by decide)

/-- C6: on the water topic, a parsed payload with action start makes
the callback behave exactly as startPump on the duration field of the
payload, defaulting to WATERING_DURATION when the field is absent, and
a parsed payload with action stop behaves exactly as stopPump. -/
theorem water_command_dispatch (onCfg : Bool) (doc : WaterDoc) (now : Nat)
    (connected : Bool) (s : DeviceState) :
    (doc.action = some "start" →
      mqttCallback true onCfg (some doc) now connected s
        = startPump (doc.duration.getD (WATERING_DURATION : Int)) now connected s)
    ∧ (doc.action = some "stop" →
      mqttCallback true onCfg (some doc) now connected s
        = stopPump now connected s) := by
  constructor
  · intro h
    simp [mqttCallback, h]
  · intro h
    simp [mqttCallback, h]

/-- C6 witness: the theorem applied to a start command carrying
duration 777 and to a stop command without a duration field. -/
theorem water_command_dispatch_witness :
    (mqttCallback true false (some { action := some "start", duration := some 777 })
        3 true initState = startPump 777 3 true initState)
    ∧ (mqttCallback true false (some { action := some "stop", duration := none })
        3 true initState = stopPump 3 true initState) :=
  ⟨(water_command_dispatch false { action := some "start", duration := some 777 }
      3 true initState).1 rfl,
   (water_command_dispatch false { action := some "stop", duration := none }
      3 true initState).2 rfl⟩

/-- C7: a start issued while the pump is already active changes nothing:
the returned state is the input state, every field included, so the
running timeout deadline is preserved, and no event is emitted. -/
theorem start_rejected_when_active (d : Int) (now : Nat) (connected : Bool)
    (s : DeviceState) (h : s.pumpActive = true) :
    startPump d now connected s = (s, []) := by
  simp [startPump, h]

/-- C7 witness: the theorem applied at the fixture state with a running
pump. -/
theorem start_rejected_when_active_witness :
    startPump 5 9 true activeState = (activeState, []) :=
  start_rejected_when_active 5 9 true activeState (by decide)

/-- C5 counterexample: with interval 30000, last-emitted timestamp 0 and
now = 30000 the elapsed time equals the interval, so the claimed firing
condition (now - lastEmitted greater than or equal to the interval)
predicts an emission, but the check the code performs is strictly
greater-than and does not fire. -/
theorem emitter_boundary_no_fire :
    emitterDue 30000 0 30000 = false ∧ 30000 - 0 ≥ 30000 := by decide

/-- C5 amended: each periodic emitter fires exactly when now minus its
own last-emitted timestamp is STRICTLY greater than its interval; when
it fires it sets its own timestamp to now (and emits exactly one event
while connected), when not due it changes nothing; the heartbeat step
never touches the sensor timestamp and the sensor step never touches
the heartbeat timestamp; and in the scenario with interval 30000 and
iterations at t = 29000 and t = 31000 from timestamp 0, the first
iteration emits nothing and the second emits exactly one heartbeat. -/
theorem periodic_emitter_spec :
    (∀ i now last : Nat, (emitterDue now last i = true ↔ i < wsub now last))
    ∧ (∀ i now : Nat, ∀ connected : Bool, ∀ s : DeviceState,
        emitterDue now s.lastHeartbeat i = true →
        heartbeatStep i now connected s
          = ({ s with lastHeartbeat := now },
             if connected then [Event.heartbeatMsg] else []))
    ∧ (∀ i now : Nat, ∀ connected : Bool, ∀ s : DeviceState,
        emitterDue now s.lastHeartbeat i = false →
        heartbeatStep i now connected s = (s, []))
    ∧ (∀ i now : Nat, ∀ connected : Bool, ∀ s : DeviceState,
        ((heartbeatStep i now connected s).1).lastSensorReading
          = s.lastSensorReading)
    ∧ (∀ i now : Nat, ∀ r : SensorData, ∀ connected : Bool, ∀ s : DeviceState,
        ((sensorStep i now r connected s).1).lastHeartbeat = s.lastHeartbeat)
    ∧ ((heartbeatStep 30000 29000 true initState).2 = []
        ∧ ((heartbeatStep 30000 29000 true initState).1).lastHeartbeat = 0
        ∧ (heartbeatStep 30000 31000 true
            ((heartbeatStep 30000 29000 true initState).1)).2
              = [Event.heartbeatMsg]
        ∧ ((heartbeatStep 30000 31000 true
            ((heartbeatStep 30000 29000 true initState).1)).1).lastHeartbeat
              = 31000) := by
  refine ⟨?_, ?_, ?_, ?_, ?_, by decide⟩
  · intro i now last
    simp [emitterDue]
  · intro i now connected s h
    simp [heartbeatStep, h]
  · intro i now connected s h
    simp [heartbeatStep, h]
  · intro i now connected s
    simp only [heartbeatStep]
    split <;> rfl
  · intro i now r connected s
    simp only [sensorStep]
    split <;> rfl

/-- C5 witness: the fires-when-due half of the theorem applied at
interval 5, now 100, from the boot state. -/
theorem periodic_emitter_spec_witness :
    heartbeatStep 5 100 true initState
      = ({ initState with lastHeartbeat := 100 }, [Event.heartbeatMsg]) :=
  periodic_emitter_spec.2.1 5 100 true initState (by decide)

/-- C8: whenever the reconnect routine ends up connected, whatever the
pattern of failed attempts before the successful one and whatever the
starting retry count, its emitted actions are exactly the subscription
to the per-device water command topic, the subscription to the
per-device config command topic, and the online status publication. -/
theorem reconnect_resubscribes_and_announces (deviceId : String)
    (outcomes : List Bool) (retryCount : Nat)
    (h : (reconnectMQTT deviceId outcomes retryCount).1 = true) :
    (reconnectMQTT deviceId outcomes retryCount).2
      = [Event.subscribe ("commands/" ++ deviceId ++ "/water"),
         Event.subscribe ("commands/" ++ deviceId ++ "/config"),
         Event.statusMsg "online"] := by
  induction outcomes generalizing retryCount with
  | nil => simp [reconnectMQTT] at h
  | cons o rest ih =>
    by_cases hr : retryCount < 5
    · cases o with
      | true => simp [reconnectMQTT, hr, publishStatus]
      | false =>
        simp only [reconnectMQTT, if_pos hr, if_neg (by decide : ¬false = true)] at h ⊢
        exact ih (retryCount + 1) h
    · simp [reconnectMQTT, hr] at h

/-- C8 witness: the theorem applied to a run whose first connect
attempt fails and whose second succeeds. -/
theorem reconnect_resubscribes_and_announces_witness :
    (reconnectMQTT "esp32_ab12" [false, true] 0).2
      = [Event.subscribe "commands/esp32_ab12/water",
         Event.subscribe "commands/esp32_ab12/config",
         Event.statusMsg "online"] :=
  reconnect_resubscribes_and_announces "esp32_ab12" [false, true] 0 (by decide)

/-- C9: when the temperature or the humidity acquisition is NaN, the
returned reading is marked invalid, while its moisture and light fields
are the same values a reading with well-defined temperature and
humidity would compute from the same moisture and light acquisitions. -/
theorem invalid_dht_preserves_partial_data (t h : Option Rat)
    (moistureRead : Nat → Int) (lightRaw : Int)
    (hnan : t = none ∨ h = none) :
    (readSensors t h moistureRead lightRaw).isValid = false
    ∧ (readSensors t h moistureRead lightRaw).moisture
        = (readSensors (some 0) (some 0) moistureRead lightRaw).moisture
    ∧ (readSensors t h moistureRead lightRaw).lightLevel
        = (readSensors (some 0) (some 0) moistureRead lightRaw).lightLevel := by
  rcases hnan with h1 | h1 <;> subst h1 <;>
    simp [readSensors]

/-- C9 witness: the theorem applied to a NaN temperature with constant
moisture samples of 500 and a raw light level of 2000. -/
theorem invalid_dht_preserves_partial_data_witness :
    (readSensors none (some 1) constReads 2000).isValid = false
    ∧ (readSensors none (some 1) constReads 2000).moisture
        = (readSensors (some 0) (some 0) constReads 2000).moisture
    ∧ (readSensors none (some 1) constReads 2000).lightLevel
        = (readSensors (some 0) (some 0) constReads 2000).lightLevel :=
  invalid_dht_preserves_partial_data none (some 1) constReads 2000 (Or.inl rfl)

/-- C10: every pump-status event reflects the post-transition state:
any event emitted by startPump is a started event carrying
pump_active = true, and any event emitted by stopPump is a stopped
event carrying pump_active = false, because both routines flip the
active flag before building the event. -/
theorem pump_event_reflects_state (d : Int) (now : Nat) (connected : Bool)
    (s : DeviceState) :
    (∀ e ∈ (startPump d now connected s).2,
      ∃ dd, e = Event.pumpMsg "started" dd true)
    ∧ (∀ e ∈ (stopPump now connected s).2,
      ∃ dd, e = Event.pumpMsg "stopped" dd false) := by
  constructor
  · intro e he
    by_cases hA : s.pumpActive
    · simp [startPump, hA] at he
    · cases connected with
      | true =>
        simp [startPump, publishPumpStatus, hA] at he
        exact ⟨d, he⟩
      | false => simp [startPump, publishPumpStatus, hA] at he
  · intro e he
    by_cases hA : s.pumpActive
    · cases connected with
      | true =>
        simp [stopPump, publishPumpStatus, hA] at he
        exact ⟨(wsub now s.pumpStartTime : Int), he⟩
      | false => simp [stopPump, publishPumpStatus, hA] at he
    · simp [stopPump, hA] at he

/-- C10 witness: the theorem applied to the started event of a concrete
start from the boot state and to the stopped event of a concrete stop
from the running fixture state. -/
theorem pump_event_reflects_state_witness :
    (∃ dd, Event.pumpMsg "started" 42 true = Event.pumpMsg "started" dd true)
    ∧ (∃ dd, Event.pumpMsg "stopped" 7 false = Event.pumpMsg "stopped" dd false) :=
  ⟨(pump_event_reflects_state 42 0 true initState).1
      (Event.pumpMsg "started" 42 true) (by decide),
   (pump_event_reflects_state 42 7 true activeState).2
      (Event.pumpMsg "stopped" 7 false) (by decide)⟩

end PlanetPlant
